import Mathlib

/-!
Verification development for the osquery watchdog core
(osquery/core/watcher.cpp, the supervisor that launches and monitors the
worker process and extension processes).

The definitions below are a shallow embedding of watcher.cpp.  Machine
integers (size_t, unsigned long long) are modelled as Nat; where the code
relies on unsigned wrap-around (the CPU-time delta subtractions, and the
size_t subtraction getUnixTime() - limit), the subtraction is taken
explicitly modulo 2^64 via usub.  External collaborators (the process
table query, process launch, kill, sleeps, flags, the shutdown facility)
are modelled as an explicit environment record and an event trace.

The struct PerformanceState and the registry fields of class Watcher are
declared in osquery/core/watcher.h, which is not among the provided
sources; their shape is modelled from the spec (section 3, Data Model) and
from the field accesses that watcher.cpp itself performs.  Where a missing
accessor has behaviour that the spec fixes (workerRestarted incrementing
the monotonic restart counter), the definition carries a comment saying so.
-/

/-- Unsigned 64-bit modulus used by the size_t / unsigned long long
arithmetic of the source. -/
def U64 : Nat := 2 ^ 64

/-- Unsigned 64-bit subtraction: the value of the C++ expression a - b on
unsigned 64-bit operands, wrapping modulo 2^64. -/
def usub (a b : Nat) : Nat := (a % U64 + (U64 - b % U64)) % U64

/-- Modelled from the spec: a PlatformProcess handle (osquery/core/process.h,
not among the provided sources) carries an OS pid; two handles compare equal
iff they refer to the same process identity, and a default-constructed handle
is invalid.  The invalid pid sentinel is -1. -/
structure PlatformProcess where
  pid : Int
deriving DecidableEq

/-- Default-constructed (invalid) process handle. -/
def PlatformProcess.invalid : PlatformProcess := ⟨-1⟩

/-- PlatformProcess::isValid: the handle refers to a real process. -/
def PlatformProcess.isValid (p : PlatformProcess) : Bool := p.pid ≠ -1

/-- Modelled from the spec: struct PerformanceState (watcher.h).  Per-child
counters, all zero initially: sustained latency intervals, last sampled CPU
times, respawn timestamp, initial resident footprint. -/
structure PerformanceState where
  sustained_latency : Nat
  user_time : Nat
  system_time : Nat
  last_respawn_time : Nat
  initial_footprint : Nat
deriving DecidableEq

/-- Zero-initialised PerformanceState (the default constructor). -/
def PerformanceState.zero : PerformanceState :=
  { sustained_latency := 0, user_time := 0, system_time := 0,
    last_respawn_time := 0, initial_footprint := 0 }

/-- Association-list model of std::map with String keys: lookup with a
default (a missing key reads as the default). -/
def mapGetD {α : Type} : List (String × α) → String → α → α
  | [], _, d => d
  | e :: rest, k, d => if e.1 = k then e.2 else mapGetD rest k d

/-- Upsert: the effect of m[k] = v (insert or overwrite). -/
def mapSet {α : Type} : List (String × α) → String → α → List (String × α)
  | [], k, v => [(k, v)]
  | e :: rest, k, v => if e.1 = k then (k, v) :: rest else e :: mapSet rest k v

/-- Key membership test (std::map::count(k) > 0). -/
def containsKey {α : Type} : List (String × α) → String → Bool
  | [], _ => false
  | e :: rest, k => if e.1 = k then true else containsKey rest k

/-- The insertion effect of std::map::operator[] when the result is only
read: a missing key is inserted with the default value. -/
def mapIndex {α : Type} (m : List (String × α)) (k : String) (d : α) :
    List (String × α) :=
  if containsKey m k then m else m ++ [(k, d)]

/-- std::map::erase by key. -/
def mapErase {α : Type} : List (String × α) → String → List (String × α)
  | [], _ => []
  | e :: rest, k => if e.1 = k then mapErase rest k else e :: mapErase rest k

/-- WatchdogLimitType (watcher.h): the kinds of watchdog limits. -/
inductive WatchdogLimitType where
  | MEMORY_LIMIT
  | UTILIZATION_LIMIT
  | RESPAWN_LIMIT
  | RESPAWN_DELAY
  | LATENCY_LIMIT
  | INTERVAL
deriving DecidableEq

/-- kWatchdogLimits: the read-only limit table of watcher.cpp, four columns
per kind indexed by watchdog level. -/
def kWatchdogLimits : WatchdogLimitType → List Nat
  | WatchdogLimitType.MEMORY_LIMIT => [80, 50, 30, 1000]
  | WatchdogLimitType.UTILIZATION_LIMIT => [90, 80, 60, 1000]
  | WatchdogLimitType.RESPAWN_LIMIT => [20, 20, 20, 5]
  | WatchdogLimitType.RESPAWN_DELAY => [5, 5, 5, 1]
  | WatchdogLimitType.LATENCY_LIMIT => [12, 6, 3, 1]
  | WatchdogLimitType.INTERVAL => [3, 3, 3, 1]

/-- getWorkerLimit (watcher.cpp): level > 3 clamps to the last column,
otherwise the column for the level is read.  The level argument stands for
the already-resolved FLAGS_watchdog_level (the C++ default argument -1 is
the flag lookup, performed by the caller here). -/
def getWorkerLimit (name : WatchdogLimitType) (level : Nat) : Nat :=
  if level > 3 then (kWatchdogLimits name).getLastD 0
  else ((kWatchdogLimits name).get? level).getD 0

/-- One row of the processes table as read by isChildSane, before the
AS_LITERAL parses.  A none field is a value whose parse throws; a some field
carries the 64-bit unsigned value the parse produces (for parent, the pid_t
value). -/
structure RawRow where
  parent : Option Int
  user_time : Option Nat
  system_time : Option Nat
  resident_size : Option Nat
deriving DecidableEq

/-- The local variables of isChildSane after its try block: the parses are
attempted in source order (parent, user_time, system_time, resident_size)
and the first failure aborts the block, leaving the remaining locals at
their zero initialisers; threw records whether the catch ran. -/
structure Sample where
  parent : Int
  user_time : Nat
  system_time : Nat
  footprint : Nat
  threw : Bool
deriving DecidableEq

/-- The try block of isChildSane: user_time and system_time are divided by
the check interval iv as they are parsed. -/
def runParse (r : RawRow) (iv : Nat) : Sample :=
  match r.parent with
  | none => { parent := 0, user_time := 0, system_time := 0, footprint := 0, threw := true }
  | some p =>
    match r.user_time with
    | none => { parent := p, user_time := 0, system_time := 0, footprint := 0, threw := true }
    | some u =>
      match r.system_time with
      | none => { parent := p, user_time := u / iv, system_time := 0, footprint := 0, threw := true }
      | some s =>
        match r.resident_size with
        | none => { parent := p, user_time := u / iv, system_time := s / iv, footprint := 0, threw := true }
        | some f => { parent := p, user_time := u / iv, system_time := s / iv, footprint := f, threw := false }

/-- Result of the locked section of isChildSane: the updated
PerformanceState, the snapshots of the locals sustained_latency and
footprint taken inside the lock, and the parsed parent pid. -/
structure SanityOutcome where
  state : PerformanceState
  sustained_latency : Nat
  footprint : Nat
  parent : Int
deriving DecidableEq

/-- The catch handler of the try block (watcher.cpp lines 246-248): a parse
failure clears sustained_latency before the comparison runs. -/
def sanityCatch (smp : Sample) (st : PerformanceState) : PerformanceState :=
  if smp.threw then { st with sustained_latency := 0 } else st

/-- The latency decision of the locked section (watcher.cpp lines 250-256):
a wrapped delta above the utilization limit increments sustained_latency,
otherwise it resets to 0. -/
def sanityTrip (util : Nat) (smp : Sample) (st0 : PerformanceState) : PerformanceState :=
  if usub smp.user_time st0.user_time > util ∨ usub smp.system_time st0.system_time > util
  then { st0 with sustained_latency := st0.sustained_latency + 1 }
  else { st0 with sustained_latency := 0 }

/-- Storing the fresh per-interval averages (watcher.cpp lines 257-259). -/
def sanityStore (smp : Sample) (st1 : PerformanceState) : PerformanceState :=
  { st1 with user_time := smp.user_time, system_time := smp.system_time }

/-- Recording the initial footprint on its first (zero) read
(watcher.cpp lines 264-269). -/
def sanityFoot (smp : Sample) (st2 : PerformanceState) : PerformanceState :=
  if st2.initial_footprint = 0 then { st2 with initial_footprint := smp.footprint } else st2

/-- The locked state update of isChildSane (watcher.cpp lines 237-277):
parse the row, clear the latency counter on a parse failure, apply the
wrapped-delta latency decision, store the fresh averages, record the
initial footprint, and report the snapshots the decision code reads (the
sustained latency, the footprint above the initial footprint clamped at 0,
and the parsed parent pid). -/
def sanityUpdate (util iv : Nat) (st : PerformanceState) (r : RawRow) : SanityOutcome :=
  let smp := runParse r iv
  let st1 := sanityTrip util smp (sanityCatch smp st)
  let st3 := sanityFoot smp (sanityStore smp st1)
  { state := st3,
    sustained_latency := st1.sustained_latency,
    footprint := if smp.footprint < st3.initial_footprint then 0
                 else smp.footprint - st3.initial_footprint,
    parent := smp.parent }

/-- Modelled from the spec: the singleton registry state of class Watcher
(watcher.h).  Fields per spec section 3: the worker handle, the
path-to-handle and path-to-state extension maps, the worker state, the last
observed worker exit status, the monotonic restart counter and the
fates-bound flag.  The registry mutex is represented by lock events in the
traces of the operations that take it, not by a field. -/
structure Watcher where
  worker : PlatformProcess
  state_ : PerformanceState
  extensions : List (String × PlatformProcess)
  extension_states : List (String × PerformanceState)
  worker_status : Int
  worker_restarts : Nat
  fates_bound : Bool
deriving DecidableEq

/-- The common body of the two reset functions of watcher.cpp: clear
sustained_latency, user_time and system_time and stamp last_respawn_time.
Note initial_footprint is not among the assigned fields. -/
def resetCounters (s : PerformanceState) (respawn_time : Nat) : PerformanceState :=
  { s with sustained_latency := 0, user_time := 0, system_time := 0,
           last_respawn_time := respawn_time }

/-- Watcher::resetWorkerCounters (watcher.cpp lines 58-65). -/
def Watcher.resetWorkerCounters (w : Watcher) (respawn_time : Nat) : Watcher :=
  { w with state_ := resetCounters w.state_ respawn_time }

/-- Watcher::resetExtensionCounters (watcher.cpp lines 67-75):
extension_states_[extension] inserts a zero state when missing, then its
counters are cleared. -/
def Watcher.resetExtensionCounters (w : Watcher) (extension : String) (respawn_time : Nat) : Watcher :=
  { w with extension_states :=
      (mapSet w.extension_states extension
        (resetCounters (mapGetD w.extension_states extension PerformanceState.zero) respawn_time)) }

/-- Watcher::getExtensionPath (watcher.cpp lines 77-84): the path of the
first extension whose stored handle equals the child, or the empty string. -/
def Watcher.getExtensionPath (w : Watcher) (child : PlatformProcess) : String :=
  match w.extensions.find? (fun e => e.2 = child) with
  | some e => e.1
  | none => ""

/-- Watcher::removeExtensionPath (watcher.cpp lines 86-90). -/
def Watcher.removeExtensionPath (w : Watcher) (extension : String) : Watcher :=
  { w with extensions := mapErase w.extensions extension,
           extension_states := mapErase w.extension_states extension }

/-- Watcher::getState(const PlatformProcess &) (watcher.cpp lines 92-98):
returns the state the reference points at, together with the registry after
the lookup (the extension branch goes through extension_states_ operator[],
which inserts a zero entry for the resolved path when it is missing). -/
def Watcher.getState (w : Watcher) (child : PlatformProcess) : PerformanceState × Watcher :=
  if child = w.worker then (w.state_, w)
  else
    let p := Watcher.getExtensionPath w child
    (mapGetD w.extension_states p PerformanceState.zero,
     { w with extension_states := mapIndex w.extension_states p PerformanceState.zero })

/-- Writing back through the reference Watcher::getState returned: the
worker branch stores into state_, the extension branch into the entry for
the path the child resolves to. -/
def Watcher.putState (w : Watcher) (child : PlatformProcess) (st : PerformanceState) : Watcher :=
  if child = w.worker then { w with state_ := st }
  else { w with extension_states :=
          mapSet w.extension_states (Watcher.getExtensionPath w child) st }

/-- Watcher::setExtension (watcher.cpp lines 104-108). -/
def Watcher.setExtension (w : Watcher) (extension : String) (child : PlatformProcess) : Watcher :=
  { w with extensions := mapSet w.extensions extension child }

/-- Modelled from the spec: Watcher::setWorker (watcher.h accessor). -/
def Watcher.setWorker (w : Watcher) (child : PlatformProcess) : Watcher :=
  { w with worker := child }

/-- Modelled from the spec: Watcher::workerRestarted (watcher.h) increments
the monotonic restart counter of spec section 3. -/
def Watcher.workerRestarted (w : Watcher) : Watcher :=
  { w with worker_restarts := w.worker_restarts + 1 }

/-- Modelled from the spec: Watcher::workerRestartCount (watcher.h) reads
the restart counter. -/
def Watcher.workerRestartCount (w : Watcher) : Nat := w.worker_restarts

/-- The per-matching-extension body of the loop in Watcher::reset
(watcher.cpp lines 117-123): a matching handle is replaced by a
default-constructed one and the extension counters are cleared. -/
def resetStep (child : PlatformProcess) (acc : Watcher) (e : String × PlatformProcess) : Watcher :=
  if e.2 = child then
    Watcher.resetExtensionCounters (Watcher.setExtension acc e.1 PlatformProcess.invalid) e.1 0
  else acc

/-- Watcher::reset (watcher.cpp lines 110-124): the worker handle is
dropped (worker_ = 0, modelled as the invalid handle) and its counters
cleared; otherwise every extension holding the child handle is reset. -/
def Watcher.reset (w : Watcher) (child : PlatformProcess) : Watcher :=
  if child = w.worker then
    Watcher.resetWorkerCounters { w with worker := PlatformProcess.invalid } 0
  else
    w.extensions.foldl (resetStep child) w

/-- Watcher::addExtensionPath (watcher.cpp lines 126-129). -/
def Watcher.addExtensionPath (w : Watcher) (path : String) : Watcher :=
  Watcher.resetExtensionCounters (Watcher.setExtension w path PlatformProcess.invalid) path 0

/-- ProcessState as returned by checkChildProcessStatus. -/
inductive ProcessState where
  | alive
  | exited
  | error
deriving DecidableEq

/-- Observable actions of the supervisor: registry lock and unlock, sleeps,
signals, process launches, shutdown requests, and the two consequences of
the null-extension-handle fall-through (storing a null handle, calling
pid() through it). -/
inductive Event where
  | lockAcquire
  | lockRelease
  | sleep (ms : Nat)
  | kill (pid : Int)
  | launchWorker
  | launchExtension (path : String)
  | requestShutdown (code : Int)
  | shutdown (code : Int)
  | setExtensionNull (path : String)
  | derefNull
deriving DecidableEq

/-- The external collaborators of the supervisor loop, as one record: the
non-blocking child status probe and the process-table rows keyed by pid, the
clock, the own pid, the outcome of the worker-path query and of the
safe-permission checks, the launch primitives, the interrupted predicate of
the runnable host, the OSQUERY_EXTENSIONS environment variable, and the
project-wide EXIT_CATASTROPHIC sentinel (defined outside watcher.cpp; its
concrete value is irrelevant to the theorems below). -/
structure Env where
  checkStatus : Int → ProcessState × Int
  rows : Int → List RawRow
  now : Nat
  mypid : Int
  qdPathOk : Bool
  safeWorker : Bool
  launchWorkerRes : Option PlatformProcess
  safeExt : String → Bool
  launchExtRes : String → Option PlatformProcess
  interrupted : Bool
  osqueryExtensionsEnv : Bool
  exitCatastrophic : Int

/-- The WatcherRunner configuration: whether a worker is managed and the
resolved FLAGS_watchdog_level. -/
structure RunnerCfg where
  use_worker : Bool
  level : Nat

/-- Watcher::hasManagedExtensions (watcher.cpp lines 131-141). -/
def Watcher.hasManagedExtensions (env : Env) (w : Watcher) : Bool :=
  !w.extensions.isEmpty || env.osqueryExtensionsEnv

/-- WatcherRunner::ok (watcher.cpp lines 143-151): stop on a success or
catastrophic worker exit status, otherwise keep running while a worker or a
managed extension exists. -/
def WatcherRunner.ok (env : Env) (w : Watcher) : Bool :=
  if w.worker_status = 0 ∨ w.worker_status = env.exitCatastrophic then false
  else w.worker.isValid || Watcher.hasManagedExtensions env w

/-- WatcherRunner::isChildSane (watcher.cpp lines 221-308): fetch the
process row; under the lock, run the sanity state update through the
reference Watcher::getState returned; then decide: a foreign parent releases
the handle via Watcher::reset and reports the child sane; a sustained
latency past the latency limit, or a footprint past the memory limit, is
insane; otherwise sane. -/
def checkIv (cfg : RunnerCfg) : Nat := max (getWorkerLimit WatchdogLimitType.INTERVAL cfg.level) 1

/-- The decision tail of isChildSane (watcher.cpp lines 279-307), given the
registry already updated through the getState reference and the snapshots
taken inside the lock: a foreign parent releases the handle via
Watcher::reset and reports the child sane; a sustained latency at or past
the latency limit, or a footprint past the memory limit, is insane. -/
def isChildSaneDecide (env : Env) (cfg : RunnerCfg) (w1 : Watcher) (child : PlatformProcess)
    (out : SanityOutcome) : Watcher × Bool :=
  if out.parent ≠ env.mypid then (Watcher.reset w1 child, true)
  else if out.sustained_latency > 0 ∧
      out.sustained_latency * checkIv cfg ≥ getWorkerLimit WatchdogLimitType.LATENCY_LIMIT cfg.level then
    (w1, false)
  else if out.footprint > 0 ∧
      out.footprint > getWorkerLimit WatchdogLimitType.MEMORY_LIMIT cfg.level * 1024 * 1024 then
    (w1, false)
  else (w1, true)

/-- The body of isChildSane for a present process row: the sanity state
update runs on the state Watcher::getState resolves (with its operator[]
insertion effect) and is written back through the reference, then the
decision tail runs. -/
def isChildSaneRow (env : Env) (cfg : RunnerCfg) (w : Watcher) (child : PlatformProcess)
    (r : RawRow) : Watcher × Bool :=
  isChildSaneDecide env cfg
    (Watcher.putState (Watcher.getState w child).2 child
      (sanityUpdate (getWorkerLimit WatchdogLimitType.UTILIZATION_LIMIT cfg.level) (checkIv cfg)
        (Watcher.getState w child).1 r).state)
    child
    (sanityUpdate (getWorkerLimit WatchdogLimitType.UTILIZATION_LIMIT cfg.level) (checkIv cfg)
      (Watcher.getState w child).1 r)

def WatcherRunner.isChildSane (env : Env) (cfg : RunnerCfg) (w : Watcher) (child : PlatformProcess) :
    Watcher × Bool :=
  match env.rows child.pid with
  | [] => (w, false)
  | r :: _ => isChildSaneRow env cfg w child r

/-- Result of one WatcherRunner::watch call. -/
structure WatchRes where
  watcher : Watcher
  ok : Bool
  events : List Event
deriving DecidableEq

/-- WatcherRunner::watch (watcher.cpp lines 185-212): probe the child
status; a bound fate, an invalid handle or a probe error is a failed watch;
a live child runs the sanity check and an insane child is stopped (kill plus
zombie reap); an exited child stores its exit code into the shared
worker_status field and the watch succeeds. -/
def WatcherRunner.watch (env : Env) (cfg : RunnerCfg) (w : Watcher) (child : PlatformProcess) :
    WatchRes :=
  if w.fates_bound then { watcher := w, ok := false, events := [] }
  else if child.isValid = false ∨ (env.checkStatus child.pid).1 = ProcessState.error then
    { watcher := w, ok := false, events := [] }
  else if (env.checkStatus child.pid).1 = ProcessState.alive then
    if (WatcherRunner.isChildSane env cfg w child).2 = false then
      { watcher := (WatcherRunner.isChildSane env cfg w child).1, ok := false,
        events := [Event.kill child.pid] }
    else { watcher := (WatcherRunner.isChildSane env cfg w child).1, ok := true, events := [] }
  else if (env.checkStatus child.pid).1 = ProcessState.exited then
    { watcher := { w with worker_status := (env.checkStatus child.pid).2 }, ok := true,
      events := [] }
  else { watcher := w, ok := true, events := [] }

/-- Result of WatcherRunner::createWorker. -/
structure CreateRes where
  watcher : Watcher
  events : List Event
deriving DecidableEq

/-- The WatcherLocker scope at the top of createWorker (watcher.cpp lines
311-324): when the worker respawned more recently than RESPAWN_LIMIT
seconds ago the restart counter is incremented and the back-off sleep of
RESPAWN_DELAY seconds plus 2 to the (incremented) restart count seconds is
taken; the pauseMilli call sits inside the locked scope.  The pow of the
source is floating point, exact on these powers of two for every
representable counter value. -/
def backoffPhase (env : Env) (cfg : RunnerCfg) (w : Watcher) : Watcher × List Event :=
  if (Watcher.getState w w.worker).1.last_respawn_time >
      usub env.now (getWorkerLimit WatchdogLimitType.RESPAWN_LIMIT cfg.level) then
    (Watcher.workerRestarted w,
     [Event.lockAcquire,
      Event.sleep (getWorkerLimit WatchdogLimitType.RESPAWN_DELAY cfg.level * 1000
        + 2 ^ Watcher.workerRestartCount (Watcher.workerRestarted w) * 1000),
      Event.lockRelease])
  else (w, [Event.lockAcquire, Event.lockRelease])

/-- WatcherRunner::createWorker (watcher.cpp lines 310-367): back-off under
the lock; resolve the own executable path (failure requests shutdown);
check binary permissions (failure requests shutdown); launch the worker (a
null handle is a fatal shutdown, followed by an explicit return); install
the new handle and reset the worker counters with the current time.  The
OSQUERY_EXTENSIONS environment hint to the child is not observable in the
claims and is elided from the trace. -/
def WatcherRunner.createWorker (env : Env) (cfg : RunnerCfg) (w : Watcher) : CreateRes :=
  if env.qdPathOk = false then
    { watcher := (backoffPhase env cfg w).1,
      events := (backoffPhase env cfg w).2 ++ [Event.requestShutdown 1] }
  else if env.safeWorker = false then
    { watcher := (backoffPhase env cfg w).1,
      events := (backoffPhase env cfg w).2 ++ [Event.requestShutdown 1] }
  else
    match env.launchWorkerRes with
    | none =>
      { watcher := (backoffPhase env cfg w).1,
        events := (backoffPhase env cfg w).2 ++ [Event.shutdown 1] }
    | some p =>
      { watcher := Watcher.resetWorkerCounters (Watcher.setWorker (backoffPhase env cfg w).1 p) env.now,
        events := (backoffPhase env cfg w).2 ++ [Event.launchWorker] }

/-- Result of WatcherRunner::createExtension. -/
structure CreateExtRes where
  watcher : Watcher
  created : Bool
  events : List Event
deriving DecidableEq

/-- WatcherRunner::createExtension (watcher.cpp lines 369-409): under the
lock, a too-recent respawn abandons the extension (return false; the
Watcher::getState string overload goes through operator[], inserting a zero
state when the path is missing); an unsafe binary returns false; then the
extension is launched.  When launchExtension returns a null handle the
source calls Initializer::shutdown(EXIT_FAILURE) and, unlike createWorker,
has no return statement after it: Initializer::shutdown is external (not
among the provided sources) and is modelled from the spec interface list as
a call that returns to its caller, as the explicit return after the same
call in createWorker assumes, so control falls through to the install code
with a null handle: setExtension stores the null pointer (modelled as the
invalid handle plus a setExtensionNull event), the counters are stamped,
and the log line calls pid() through the null handle (the derefNull event);
the function then returns true. -/
def WatcherRunner.createExtension (env : Env) (cfg : RunnerCfg) (w : Watcher) (extension : String) :
    CreateExtRes :=
  let st := mapGetD w.extension_states extension PerformanceState.zero
  let w0 := { w with extension_states := mapIndex w.extension_states extension PerformanceState.zero }
  if st.last_respawn_time > usub env.now (getWorkerLimit WatchdogLimitType.RESPAWN_LIMIT cfg.level) then
    { watcher := w0, created := false, events := [Event.lockAcquire, Event.lockRelease] }
  else if env.safeExt extension = false then
    { watcher := w0, created := false, events := [Event.lockAcquire, Event.lockRelease] }
  else
    match env.launchExtRes extension with
    | none =>
      { watcher := (Watcher.resetExtensionCounters
          (Watcher.setExtension w0 extension PlatformProcess.invalid) extension env.now),
        created := true,
        events := [Event.lockAcquire, Event.lockRelease, Event.shutdown 1,
                   Event.setExtensionNull extension, Event.derefNull] }
    | some p =>
      { watcher := (Watcher.resetExtensionCounters
          (Watcher.setExtension w0 extension p) extension env.now),
        created := true,
        events := [Event.lockAcquire, Event.lockRelease, Event.launchExtension extension] }

/-- Result of the worker branch of one supervisor-loop iteration. -/
structure PhaseRes where
  watcher : Watcher
  events : List Event
  broke : Bool
deriving DecidableEq

/-- The worker branch at the top of the loop in WatcherRunner::start
(watcher.cpp lines 159-166): with a worker in use, a failed watch either
breaks out of the loop (when the fates are bound) or creates a worker. -/
def workerPhase (env : Env) (cfg : RunnerCfg) (w : Watcher) : PhaseRes :=
  if cfg.use_worker then
    let r := WatcherRunner.watch env cfg w w.worker
    if r.ok then { watcher := r.watcher, events := r.events, broke := false }
    else if r.watcher.fates_bound then
      { watcher := r.watcher, events := r.events, broke := true }
    else
      let c := WatcherRunner.createWorker env cfg r.watcher
      { watcher := c.watcher, events := r.events ++ c.events, broke := false }
  else { watcher := w, events := [], broke := false }

/-- Accumulator of the extension loop of WatcherRunner::start. -/
structure ExtAcc where
  watcher : Watcher
  events : List Event
  failing : List String
deriving DecidableEq

/-- One step of the extension loop (watcher.cpp lines 170-176): the current
handle for the path is read from the live map, watched, and on failure
createExtension runs; a failed creation records the path for removal. -/
def extStep (env : Env) (cfg : RunnerCfg) (acc : ExtAcc) (path : String) : ExtAcc :=
  let h := mapGetD acc.watcher.extensions path PlatformProcess.invalid
  let r := WatcherRunner.watch env cfg acc.watcher h
  if r.ok then { watcher := r.watcher, events := acc.events ++ r.events, failing := acc.failing }
  else
    let c := WatcherRunner.createExtension env cfg r.watcher path
    { watcher := c.watcher, events := acc.events ++ r.events ++ c.events,
      failing := if c.created then acc.failing else acc.failing ++ [path] }

/-- Result of one full supervisor-loop iteration: the registry afterwards,
the event trace, whether the body broke out, and otherwise the value of the
loop condition (not interrupted, and ok) at the iteration boundary. -/
structure LoopRes where
  watcher : Watcher
  events : List Event
  broke : Bool
  cont : Bool
deriving DecidableEq

/-- One iteration of the do-while loop of WatcherRunner::start (watcher.cpp
lines 158-182): the worker branch, then the extension loop over the
registered extension paths, then removal of the extensions that failed to
respawn, the interval sleep, and the loop condition. -/
def WatcherRunner.loopBodyOnce (env : Env) (cfg : RunnerCfg) (w : Watcher) : LoopRes :=
  let wp := workerPhase env cfg w
  if wp.broke then { watcher := wp.watcher, events := wp.events, broke := true, cont := false }
  else
    let acc0 : ExtAcc := { watcher := wp.watcher, events := wp.events, failing := [] }
    let accF := (wp.watcher.extensions.map (fun e => e.1)).foldl (extStep env cfg) acc0
    let w2 := accF.failing.foldl Watcher.removeExtensionPath accF.watcher
    { watcher := w2,
      events := accF.events ++ [Event.sleep (getWorkerLimit WatchdogLimitType.INTERVAL cfg.level * 1000)],
      broke := false,
      cont := !env.interrupted && WatcherRunner.ok env w2 }

/-- Iterated sanity checking of one child, one environment snapshot per
check (each check queries the process table anew): the registry after the
run and the per-check verdicts of isChildSane. -/
def runSanityChecks (cfg : RunnerCfg) (w : Watcher) (child : PlatformProcess) :
    List Env → Watcher × List Bool
  | [] => (w, [])
  | e :: rest =>
    let s := WatcherRunner.isChildSane e cfg w child
    let r := runSanityChecks cfg s.1 child rest
    (r.1, s.2 :: r.2)

/-- One of the two wrapped CPU deltas exceeds the utilization limit. -/
def tripCondB (cfg : RunnerCfg) (st : PerformanceState) (smp : Sample) : Bool :=
  decide (usub smp.user_time st.user_time > getWorkerLimit WatchdogLimitType.UTILIZATION_LIMIT cfg.level) ||
  decide (usub smp.system_time st.system_time > getWorkerLimit WatchdogLimitType.UTILIZATION_LIMIT cfg.level)

/-- The memory limit does not trip on this outcome. -/
def memOkB (cfg : RunnerCfg) (out : SanityOutcome) : Bool :=
  !(decide (out.footprint > 0) &&
    decide (out.footprint > getWorkerLimit WatchdogLimitType.MEMORY_LIMIT cfg.level * 1024 * 1024))

/-- The hypothesis shape of the latency-trip claim, as a checkable
predicate over an environment sequence: at every check the process row is
present and fully parsed, reports the supervisor as parent, one of the two
wrapped CPU deltas exceeds the utilization limit, and the memory limit does
not trip; the state argument threads the sanity updates. -/
def allTripRun (cfg : RunnerCfg) (mypid cpid : Int) :
    PerformanceState → List Env → Bool
  | _, [] => true
  | st, e :: rest =>
    match e.rows cpid with
    | [r] =>
      (!(runParse r (checkIv cfg)).threw) &&
      ((runParse r (checkIv cfg)).parent == e.mypid) && (e.mypid == mypid) &&
      tripCondB cfg st (runParse r (checkIv cfg)) &&
      memOkB cfg (sanityUpdate (getWorkerLimit WatchdogLimitType.UTILIZATION_LIMIT cfg.level)
        (checkIv cfg) st r) &&
      allTripRun cfg mypid cpid
        (sanityUpdate (getWorkerLimit WatchdogLimitType.UTILIZATION_LIMIT cfg.level)
          (checkIv cfg) st r).state rest
    | _ => false

/-- Ceiling division, the n of the latency-trip claim. -/
def ceilDiv (a b : Nat) : Nat := (a + b - 1) / b

/-- Scan of an event trace: true when some sleep event occurs while the
registry lock is held (lock depth positive). -/
def sleepWhileLockedAux : Nat → List Event → Bool
  | _, [] => false
  | d, Event.lockAcquire :: rest => sleepWhileLockedAux (d + 1) rest
  | d, Event.lockRelease :: rest => sleepWhileLockedAux (d - 1) rest
  | d, Event.sleep _ :: rest => decide (0 < d) || sleepWhileLockedAux d rest
  | d, _ :: rest => sleepWhileLockedAux d rest

/-- True when the trace sleeps while holding the registry lock. -/
def sleepWhileLocked (evs : List Event) : Bool := sleepWhileLockedAux 0 evs

/-- Key-set equality of the two extension maps, the invariant of the claim
about quiescent points. -/
def keysEq (w : Watcher) : Prop :=
  ∀ k, containsKey w.extensions k = true ↔ containsKey w.extension_states k = true

/-- The empty extension path, the sink key of the unmatched-handle lookup. -/
def emptyPath : String := ""

/-- A sample extension path used in the concrete scenarios. -/
def extA : String := "/opt/ext/a"

/-- Default runner configuration: a worker in use, watchdog level 0. -/
def cfg0 : RunnerCfg := { use_worker := true, level := 0 }

/-- Runner configuration without a worker (extensions-only watching). -/
def cfgNoWorker : RunnerCfg := { use_worker := false, level := 0 }

/-- A benign environment: every probe reports a live child, the process
table is empty, launches succeed, nothing is interrupted. -/
def envBase : Env :=
  { checkStatus := fun _ => (ProcessState.alive, 0),
    rows := fun _ => [],
    now := 100,
    mypid := 42,
    qdPathOk := true,
    safeWorker := true,
    launchWorkerRes := some ⟨6⟩,
    safeExt := fun _ => true,
    launchExtRes := fun _ => some ⟨10⟩,
    interrupted := false,
    osqueryExtensionsEnv := false,
    exitCatastrophic := 99 }

/-- A benign registry: worker pid 5, zeroed counters, no extensions, no
exit status observed yet. -/
def wBase : Watcher :=
  { worker := ⟨5⟩,
    state_ := PerformanceState.zero,
    extensions := [],
    extension_states := [],
    worker_status := -1,
    worker_restarts := 0,
    fates_bound := false }

/-- Registry whose worker has a non-zero initial footprint on record. -/
def w1c : Watcher :=
  { wBase with state_ := { PerformanceState.zero with initial_footprint := 5 } }

/-- Registry whose worker respawned 95 s into a 100 s clock: inside the
RESPAWN_LIMIT window, so createWorker backs off. -/
def w7 : Watcher :=
  { wBase with state_ := { PerformanceState.zero with last_respawn_time := 95 } }

/-- Registry managing one extension with pid 9. -/
def w10 : Watcher :=
  { wBase with extensions := [(extA, ⟨9⟩)],
               extension_states := [(extA, PerformanceState.zero)] }

/-- Environment whose extension launches fail (launchExtension returns a
null handle). -/
def env10 : Env := { envBase with launchExtRes := fun _ => none }

/-- Registry with bound fates, no worker in use, one managed extension. -/
def w2c : Watcher :=
  { wBase with worker := PlatformProcess.invalid,
               fates_bound := true,
               extensions := [(extA, ⟨9⟩)],
               extension_states := [(extA, PerformanceState.zero)] }

/-- Registry with bound fates and a worker. -/
def w2w : Watcher := { wBase with fates_bound := true }

/-- A process row whose stored counter sample is zero and whose parent is
the supervisor. -/
def r9 : RawRow :=
  { parent := some 42, user_time := some 0, system_time := some 0, resident_size := some 0 }

/-- A prior state holding the largest representable CPU counter, as parsed
from a row reporting -1 (converted to unsigned) at interval 1. -/
def st9 : PerformanceState :=
  { sustained_latency := 3, user_time := U64 - 1, system_time := 0,
    last_respawn_time := 0, initial_footprint := 0 }

/-- A prior state with a positive stored counter and some sustained
latency. -/
def st9w : PerformanceState :=
  { sustained_latency := 2, user_time := 1000, system_time := 0,
    last_respawn_time := 0, initial_footprint := 0 }

/-- A process row whose parent pid is 1, not the supervisor: the pid was
reused by a foreign process. -/
def rForeign : RawRow :=
  { parent := some 1, user_time := some 0, system_time := some 0, resident_size := some 0 }

/-- Environment whose process table shows the foreign row for pid 5. -/
def env5 : Env :=
  { envBase with rows := fun p => if p = 5 then [rForeign] else [] }

/-- A healthy process row: supervisor parent, idle CPU, small footprint. -/
def rHealthy : RawRow :=
  { parent := some 42, user_time := some 0, system_time := some 0, resident_size := some 100 }

/-- Environment where the worker (pid 5) is alive and healthy and the
extension (pid 9) has exited with EXIT_SUCCESS. -/
def env8 : Env :=
  { envBase with
      checkStatus := fun p => if p = 9 then (ProcessState.exited, 0) else (ProcessState.alive, 0),
      rows := fun p => if p = 5 then [rHealthy] else [] }

/-- Registry with the worker and one managed extension with pid 9. -/
def w8 : Watcher :=
  { wBase with extensions := [(extA, ⟨9⟩)],
               extension_states := [(extA, PerformanceState.zero)] }

/-- Process row for the i-th latency-trip check: the user CPU sample grows
by 1000 per-interval units per check, far above the utilization limit. -/
def rTrip (i : Nat) : RawRow :=
  { parent := some 42, user_time := some (3000 * (i + 1)), system_time := some 0,
    resident_size := some 100 }

/-- Environment for the i-th latency-trip check on the worker (pid 5). -/
def envTrip (i : Nat) : Env :=
  { envBase with rows := fun p => if p = 5 then [rTrip i] else [] }

/-- The four environment snapshots of the latency-trip scenario at level 0
(interval 3 s, latency limit 12 s: the trip must fire at check 4). -/
def envs4 : List Env := [envTrip 0, envTrip 1, envTrip 2, envTrip 3]

/-! Helper lemmas about the association-list map operations. -/

theorem mapGetD_mapSet_self {α : Type} (m : List (String × α)) (k : String) (v d : α) :
    mapGetD (mapSet m k v) k d = v := by
  induction m with
  | nil => simp [mapSet, mapGetD]
  | cons e rest ih =>
    by_cases h : e.1 = k <;> simp [mapSet, mapGetD, h, ih]

theorem mapGetD_mapSet_ne {α : Type} (m : List (String × α)) (k q : String) (v d : α)
    (h : q ≠ k) : mapGetD (mapSet m k v) q d = mapGetD m q d := by
  have hk : ¬ k = q := fun hh => h (Eq.symm hh)
  induction m with
  | nil => simp [mapSet, mapGetD, hk]
  | cons e rest ih =>
    by_cases h1 : e.1 = k
    · have h3 : ¬ e.1 = q := by rw [h1]; exact hk
      simp [mapSet, mapGetD, h1, hk, h3]
    · simp [mapSet, mapGetD, h1, ih]

theorem containsKey_mapSet_iff {α : Type} (m : List (String × α)) (k q : String) (v : α) :
    containsKey (mapSet m k v) q = true ↔ (k = q ∨ containsKey m q = true) := by
  induction m with
  | nil => by_cases h : k = q <;> simp [mapSet, containsKey, h]
  | cons e rest ih =>
    by_cases h1 : e.1 = k
    · by_cases h2 : k = q
      · simp [mapSet, containsKey, h1, h2]
      · have h3 : ¬ e.1 = q := by rw [h1]; exact h2
        simp [mapSet, containsKey, h1, h2, h3]
    · by_cases h3 : e.1 = q
      · have h2 : ¬ q = k := fun hh => h1 (h3.trans hh)
        simp [mapSet, containsKey, h1, h3, h2]
      · simp [mapSet, containsKey, h1, h3, ih]

theorem containsKey_append_single {α : Type} (m : List (String × α)) (k q : String) (d : α) :
    containsKey (m ++ [(k, d)]) q = true ↔ (containsKey m q = true ∨ k = q) := by
  induction m with
  | nil => by_cases h : k = q <;> simp [containsKey, h]
  | cons e rest ih =>
    by_cases h1 : e.1 = q <;> simp [containsKey, h1, ih]

theorem containsKey_mapIndex_iff {α : Type} (m : List (String × α)) (k q : String) (d : α) :
    containsKey (mapIndex m k d) q = true ↔ (k = q ∨ containsKey m q = true) := by
  unfold mapIndex
  split
  · rename_i hk
    constructor
    · exact fun h => Or.inr h
    · rintro (rfl | h)
      · exact hk
      · exact h
  · rw [containsKey_append_single]
    exact Or.comm

theorem containsKey_mapErase_self {α : Type} (m : List (String × α)) (k : String) :
    containsKey (mapErase m k) k = false := by
  induction m with
  | nil => rfl
  | cons e rest ih =>
    by_cases h1 : e.1 = k <;> simp [mapErase, containsKey, h1, ih]

theorem containsKey_mapErase_ne {α : Type} (m : List (String × α)) (k q : String)
    (h : ¬ q = k) : containsKey (mapErase m k) q = containsKey m q := by
  induction m with
  | nil => rfl
  | cons e rest ih =>
    by_cases h1 : e.1 = k
    · have h3 : ¬ e.1 = q := fun hh => h (hh.symm.trans h1)
      have h4 : ¬ k = q := fun hh => h hh.symm
      simp [mapErase, containsKey, h1, h3, h4, ih]
    · by_cases h3 : e.1 = q <;> simp [mapErase, containsKey, h1, h3, h, ih]

theorem containsKey_mapErase_iff {α : Type} (m : List (String × α)) (k q : String) :
    containsKey (mapErase m k) q = true ↔ (containsKey m q = true ∧ ¬ q = k) := by
  by_cases hqk : q = k
  · subst hqk
    simp [containsKey_mapErase_self]
  · rw [containsKey_mapErase_ne _ _ _ hqk]
    simp [hqk]

/-! Helper lemmas about the registry reset operations. -/

theorem extStateD_resetExt (w : Watcher) (p q : String) (t : Nat) :
    mapGetD (Watcher.resetExtensionCounters w p t).extension_states q PerformanceState.zero
      = if q = p then resetCounters (mapGetD w.extension_states p PerformanceState.zero) t
        else mapGetD w.extension_states q PerformanceState.zero := by
  by_cases h : q = p
  · subst h
    simp [Watcher.resetExtensionCounters, mapGetD_mapSet_self]
  · simp [Watcher.resetExtensionCounters, mapGetD_mapSet_ne _ _ _ _ _ h, h]

theorem resetFold_state (child : PlatformProcess) :
    ∀ (l : List (String × PlatformProcess)) (acc : Watcher),
    (l.foldl (resetStep child) acc).state_ = acc.state_ := by
  intro l
  induction l with
  | nil => intro acc; rfl
  | cons e rest ih =>
    intro acc
    rw [List.foldl_cons, ih]
    unfold resetStep
    split <;> rfl

theorem resetFold_worker (child : PlatformProcess) :
    ∀ (l : List (String × PlatformProcess)) (acc : Watcher),
    (l.foldl (resetStep child) acc).worker = acc.worker := by
  intro l
  induction l with
  | nil => intro acc; rfl
  | cons e rest ih =>
    intro acc
    rw [List.foldl_cons, ih]
    unfold resetStep
    split <;> rfl

theorem resetFold_foot (child : PlatformProcess) :
    ∀ (l : List (String × PlatformProcess)) (acc : Watcher) (q : String),
    (mapGetD (l.foldl (resetStep child) acc).extension_states q PerformanceState.zero).initial_footprint
      = (mapGetD acc.extension_states q PerformanceState.zero).initial_footprint := by
  intro l
  induction l with
  | nil => intro acc q; rfl
  | cons e rest ih =>
    intro acc q
    rw [List.foldl_cons, ih]
    unfold resetStep
    split
    · rw [extStateD_resetExt]
      by_cases hq : q = e.1
      · subst hq
        rw [if_pos rfl]
        rfl
      · rw [if_neg hq]
        rfl
    · rfl

/-- C1 counterexample: resetting the worker counters of a registry whose
worker has a recorded initial footprint of 5 leaves initial_footprint at 5,
so the claimed post-reset conjunction fails. -/
theorem c1_counterexample :
    ¬ ((Watcher.resetWorkerCounters w1c 0).state_.initial_footprint = 0 ∧
       (Watcher.resetWorkerCounters w1c 0).state_.sustained_latency = 0) := by
  decide

/-- C1 (amended): after Watcher::resetWorkerCounters,
Watcher::resetExtensionCounters and Watcher::reset, the target child state
has sustained_latency, user_time and system_time cleared and
last_respawn_time stamped, but initial_footprint is left unchanged by all
three operations (it is not cleared on reset). -/
theorem c1_amended (w : Watcher) (t : Nat) (p : String) (child : PlatformProcess) :
    ((Watcher.resetWorkerCounters w t).state_.sustained_latency = 0 ∧
     (Watcher.resetWorkerCounters w t).state_.user_time = 0 ∧
     (Watcher.resetWorkerCounters w t).state_.system_time = 0 ∧
     (Watcher.resetWorkerCounters w t).state_.last_respawn_time = t ∧
     (Watcher.resetWorkerCounters w t).state_.initial_footprint = w.state_.initial_footprint) ∧
    ((mapGetD (Watcher.resetExtensionCounters w p t).extension_states p
        PerformanceState.zero).sustained_latency = 0 ∧
     (mapGetD (Watcher.resetExtensionCounters w p t).extension_states p
        PerformanceState.zero).initial_footprint
       = (mapGetD w.extension_states p PerformanceState.zero).initial_footprint) ∧
    ((Watcher.reset w child).state_.initial_footprint = w.state_.initial_footprint ∧
     ∀ q, (mapGetD (Watcher.reset w child).extension_states q
        PerformanceState.zero).initial_footprint
       = (mapGetD w.extension_states q PerformanceState.zero).initial_footprint) := by
  refine ⟨⟨rfl, rfl, rfl, rfl, rfl⟩, ?_, ?_⟩
  · have h := extStateD_resetExt w p p t
    rw [if_pos rfl] at h
    rw [h]
    exact ⟨rfl, rfl⟩
  · unfold Watcher.reset
    by_cases hc : child = w.worker
    · rw [if_pos hc]
      exact ⟨rfl, fun q => rfl⟩
    · rw [if_neg hc]
      exact ⟨by rw [resetFold_state], fun q => by rw [resetFold_foot]⟩

/-- C7 evaluation at the failing input: with the worker respawned 95 s into
a 100 s clock (inside the 20 s RESPAWN_LIMIT window), createWorker emits
its back-off sleep strictly between acquiring and releasing the registry
lock: the mutex is held across pauseMilli. -/
theorem c7_lock_sleep_eval :
    sleepWhileLocked (WatcherRunner.createWorker envBase cfg0 w7).events = true ∧
    Event.sleep 7000 ∈ (WatcherRunner.createWorker envBase cfg0 w7).events := by
  decide

/-- C10 evaluation at the failing input: when launchExtension returns a
null handle, createExtension requests shutdown but control falls through
(there is no return statement, unlike createWorker): the null handle is
passed to setExtension, pid() is called through it, and the function
reports the creation as successful. -/
theorem c10_null_fallthrough_eval :
    (WatcherRunner.createExtension env10 cfg0 w10 extA).created = true ∧
    Event.shutdown 1 ∈ (WatcherRunner.createExtension env10 cfg0 w10 extA).events ∧
    Event.setExtensionNull extA ∈ (WatcherRunner.createExtension env10 cfg0 w10 extA).events ∧
    Event.derefNull ∈ (WatcherRunner.createExtension env10 cfg0 w10 extA).events := by
  decide

/-- C2 counterexample: with the fates already bound, no worker in use and
one registered extension, the loop body does not break and createExtension
still launches an extension process. -/
theorem c2_counterexample :
    w2c.fates_bound = true ∧
    (WatcherRunner.loopBodyOnce envBase cfgNoWorker w2c).broke = false ∧
    Event.launchExtension extA ∈ (WatcherRunner.loopBodyOnce envBase cfgNoWorker w2c).events := by
  decide

/-- C2 (amended): when a worker is in use and fates_bound is already true
at the start of an iteration, the loop breaks at the worker branch without
creating any child: no launch (indeed no event at all) is produced.  The
extension branch, by contrast, has no fates check of its own (see the
counterexample). -/
theorem c2_amended (env : Env) (cfg : RunnerCfg) (w : Watcher)
    (hu : cfg.use_worker = true) (hf : w.fates_bound = true) :
    (WatcherRunner.loopBodyOnce env cfg w).broke = true ∧
    (WatcherRunner.loopBodyOnce env cfg w).events = [] := by
  simp [WatcherRunner.loopBodyOnce, workerPhase, WatcherRunner.watch, hu, hf]

/-- C2 witness: the amended statement applied to the benign environment, a
fates-bound registry and the worker-using configuration. -/
theorem c2_witness :
    (WatcherRunner.loopBodyOnce envBase cfg0 w2w).broke = true ∧
    (WatcherRunner.loopBodyOnce envBase cfg0 w2w).events = [] :=
  c2_amended envBase cfg0 w2w rfl rfl

/-- C3 counterexample: a registry with equal (empty) key sets; a getState
lookup for handle pid 8, which matches neither the worker (pid 5) nor any
stored extension handle, inserts the empty path into extension_states only,
and the key sets differ afterwards. -/
theorem c3_counterexample :
    keysEq wBase ∧ ¬ keysEq (Watcher.getState wBase ⟨8⟩).2 :=
  ⟨fun _ => Iff.rfl,
   fun h => absurd ((h emptyPath).mpr (by decide)) (by decide)⟩

/-- Auxiliary: the setExtension-then-resetExtensionCounters pair (the
install sequence of createExtension, and the body of addExtensionPath)
inserts the same key into both maps, so key-set equality is preserved. -/
theorem keysEq_install (w : Watcher) (p : String) (hdl : PlatformProcess) (t : Nat)
    (hk : keysEq w) :
    keysEq (Watcher.resetExtensionCounters (Watcher.setExtension w p hdl) p t) := by
  intro q
  show containsKey (mapSet w.extensions p hdl) q = true ↔
    containsKey (mapSet w.extension_states p
      (resetCounters (mapGetD w.extension_states p PerformanceState.zero) t)) q = true
  rw [containsKey_mapSet_iff, containsKey_mapSet_iff]
  exact or_congr Iff.rfl (hk q)

/-- Auxiliary: every step of the extension loop inside Watcher::reset
preserves key-set equality, hence so does the whole fold. -/
theorem keysEq_resetFold (child : PlatformProcess) :
    ∀ (l : List (String × PlatformProcess)) (acc : Watcher),
    keysEq acc → keysEq (l.foldl (resetStep child) acc) := by
  intro l
  induction l with
  | nil => intro acc hk; exact hk
  | cons e rest ih =>
    intro acc hk
    rw [List.foldl_cons]
    apply ih
    unfold resetStep
    split
    · exact keysEq_install acc e.1 PlatformProcess.invalid 0 hk
    · exact hk

/-- C3 (amended): every registry operation of watcher.cpp other than an
unmatched-handle getState lookup preserves equality of the key sets of
extensions and extension_states: addExtensionPath, removeExtensionPath,
resetWorkerCounters, the setExtension-plus-resetExtensionCounters install
pair, reset, and a getState lookup for a handle that matches the worker.
The unmatched lookup breaks it (see the counterexample). -/
theorem c3_amended (w : Watcher) (p : String) (hdl child : PlatformProcess) (t : Nat)
    (hk : keysEq w) :
    keysEq (Watcher.addExtensionPath w p) ∧
    keysEq (Watcher.removeExtensionPath w p) ∧
    keysEq (Watcher.resetWorkerCounters w t) ∧
    keysEq (Watcher.resetExtensionCounters (Watcher.setExtension w p hdl) p t) ∧
    keysEq (Watcher.reset w child) ∧
    (child = w.worker → keysEq (Watcher.getState w child).2) := by
  refine ⟨?_, ?_, ?_, ?_, ?_, ?_⟩
  · exact keysEq_install w p PlatformProcess.invalid 0 hk
  · intro q
    show containsKey (mapErase w.extensions p) q = true ↔
      containsKey (mapErase w.extension_states p) q = true
    rw [containsKey_mapErase_iff, containsKey_mapErase_iff]
    exact and_congr (hk q) Iff.rfl
  · intro q
    exact hk q
  · exact keysEq_install w p hdl t hk
  · unfold Watcher.reset
    split
    · intro q
      exact hk q
    · exact keysEq_resetFold child w.extensions w hk
  · intro hc
    unfold Watcher.getState
    rw [if_pos hc]
    exact hk

/-- C3 witness: the amended statement applied to the benign registry, whose
two extension maps are both empty. -/
theorem c3_witness : keysEq (Watcher.addExtensionPath wBase extA) :=
  (c3_amended wBase extA PlatformProcess.invalid PlatformProcess.invalid 0
    (fun _ => Iff.rfl)).1

/-- C9 counterexample: a prior state whose stored user counter is 2^64 - 1
(as the code itself produces from a row reporting -1 at interval 1) and a
fresh sample of 0: the stored counter exceeds the sample, yet the wrapped
delta is 1, which does not exceed the utilization limit, and
sustained_latency is reset to 0 instead of incremented. -/
theorem c9_counterexample :
    st9.user_time > (runParse r9 3).user_time ∧
    ¬ (usub (runParse r9 3).user_time st9.user_time >
        getWorkerLimit WatchdogLimitType.UTILIZATION_LIMIT 0) ∧
    (sanityUpdate (getWorkerLimit WatchdogLimitType.UTILIZATION_LIMIT 0) 3 st9 r9).state.sustained_latency = 0 := by
  decide

/-- Auxiliary: the updated state of sanityUpdate, spelled out. -/
theorem sanityUpdate_state_def (util iv : Nat) (st : PerformanceState) (r : RawRow) :
    (sanityUpdate util iv st r).state
      = sanityFoot (runParse r iv) (sanityStore (runParse r iv)
          (sanityTrip util (runParse r iv) (sanityCatch (runParse r iv) st))) := rfl

/-- Auxiliary: the latency snapshot of sanityUpdate, spelled out. -/
theorem sanityUpdate_snapshot_def (util iv : Nat) (st : PerformanceState) (r : RawRow) :
    (sanityUpdate util iv st r).sustained_latency
      = (sanityTrip util (runParse r iv) (sanityCatch (runParse r iv) st)).sustained_latency := rfl

/-- Auxiliary: recording the footprint does not change the latency. -/
theorem sanityFoot_latency (smp : Sample) (st2 : PerformanceState) :
    (sanityFoot smp st2).sustained_latency = st2.sustained_latency := by
  unfold sanityFoot
  split <;> rfl

/-- Auxiliary: storing the averages does not change the latency. -/
theorem sanityStore_latency (smp : Sample) (st1 : PerformanceState) :
    (sanityStore smp st1).sustained_latency = st1.sustained_latency := rfl

/-- Auxiliary: the catch handler does not change the stored user time. -/
theorem sanityCatch_user (smp : Sample) (st : PerformanceState) :
    (sanityCatch smp st).user_time = st.user_time := by
  unfold sanityCatch
  split <;> rfl

/-- Auxiliary: the catch handler does not change the stored system time. -/
theorem sanityCatch_system (smp : Sample) (st : PerformanceState) :
    (sanityCatch smp st).system_time = st.system_time := by
  unfold sanityCatch
  split <;> rfl

/-- Auxiliary: the latency after the catch handler. -/
theorem sanityCatch_latency (smp : Sample) (st : PerformanceState) :
    (sanityCatch smp st).sustained_latency = if smp.threw then 0 else st.sustained_latency := by
  unfold sanityCatch
  split <;> simp_all

/-- Auxiliary: the latency after the trip decision. -/
theorem sanityTrip_latency (util : Nat) (smp : Sample) (st0 : PerformanceState) :
    (sanityTrip util smp st0).sustained_latency =
      if usub smp.user_time st0.user_time > util ∨ usub smp.system_time st0.system_time > util
      then st0.sustained_latency + 1 else 0 := by
  unfold sanityTrip
  split <;> rfl

/-- Auxiliary: the post-update sustained_latency of the sanity state
machine, written as an explicit conditional over the raw inputs. -/
theorem sanityUpdate_latency (util iv : Nat) (st : PerformanceState) (r : RawRow) :
    (sanityUpdate util iv st r).state.sustained_latency =
      (if usub (runParse r iv).user_time st.user_time > util ∨
          usub (runParse r iv).system_time st.system_time > util
       then (if (runParse r iv).threw then 0 else st.sustained_latency) + 1
       else 0) := by
  rw [sanityUpdate_state_def, sanityFoot_latency, sanityStore_latency, sanityTrip_latency,
      sanityCatch_user, sanityCatch_system, sanityCatch_latency]

/-- Auxiliary: the latency snapshot the decision code reads equals the
stored post-update value. -/
theorem sanityUpdate_latency_snapshot (util iv : Nat) (st : PerformanceState) (r : RawRow) :
    (sanityUpdate util iv st r).sustained_latency
      = (sanityUpdate util iv st r).state.sustained_latency := by
  rw [sanityUpdate_snapshot_def, sanityUpdate_state_def, sanityFoot_latency, sanityStore_latency]

/-- Auxiliary: the parent the sanity decision compares is the parsed
parent pid of the row. -/
theorem sanityUpdate_parent (util iv : Nat) (st : PerformanceState) (r : RawRow) :
    (sanityUpdate util iv st r).parent = (runParse r iv).parent := rfl

/-- C9 (amended): the utilization deltas are computed in unsigned 64-bit
arithmetic and wrap modulo 2^64; whenever the stored user counter exceeds
the fresh per-interval sample and the excess is below 2^64 minus the
utilization limit (every realistically reachable state), the wrapped delta
compares greater than the limit and sustained_latency takes the increment
branch rather than the reset branch (on the exception path, the increment
applies after the catch block cleared the counter). -/
theorem c9_amended (st : PerformanceState) (r : RawRow) (util iv : Nat)
    (h1 : st.user_time < U64)
    (h2 : (runParse r iv).user_time < st.user_time)
    (h3 : st.user_time - (runParse r iv).user_time < U64 - util) :
    usub (runParse r iv).user_time st.user_time > util ∧
    (sanityUpdate util iv st r).state.sustained_latency
      = (if (runParse r iv).threw then 0 else st.sustained_latency) + 1 := by
  have ha : (runParse r iv).user_time % U64 = (runParse r iv).user_time :=
    Nat.mod_eq_of_lt (lt_trans h2 h1)
  have hb : st.user_time % U64 = st.user_time := Nat.mod_eq_of_lt h1
  have hu : usub (runParse r iv).user_time st.user_time
      = U64 - (st.user_time - (runParse r iv).user_time) := by
    unfold usub
    rw [ha, hb, Nat.mod_eq_of_lt (by omega)]
    omega
  have htrip : usub (runParse r iv).user_time st.user_time > util := by
    rw [hu]
    omega
  refine ⟨htrip, ?_⟩
  rw [sanityUpdate_latency, if_pos (Or.inl htrip)]

/-- C9 witness: the amended statement at a stored counter of 1000, a fresh
sample of 0 and the level-0 utilization limit 90: the wrapped delta
2^64 - 1000 exceeds 90 and sustained_latency rises from 2 to 3. -/
theorem c9_witness :
    usub (runParse r9 3).user_time st9w.user_time >
        getWorkerLimit WatchdogLimitType.UTILIZATION_LIMIT 0 ∧
    (sanityUpdate (getWorkerLimit WatchdogLimitType.UTILIZATION_LIMIT 0) 3 st9w r9).state.sustained_latency
      = (if (runParse r9 3).threw then 0 else st9w.sustained_latency) + 1 :=
  c9_amended st9w r9 (getWorkerLimit WatchdogLimitType.UTILIZATION_LIMIT 0) 3
    (by decide) (by decide) (by decide)

/-- Auxiliary: Watcher::getState on a handle equal to the worker reads the
worker state and leaves the registry unchanged. -/
theorem getState_worker (w : Watcher) (child : PlatformProcess) (he : child = w.worker) :
    Watcher.getState w child = (w.state_, w) := by
  unfold Watcher.getState
  rw [if_pos he]

/-- Auxiliary: writing back through the worker-state reference. -/
theorem putState_worker (w : Watcher) (child : PlatformProcess) (st : PerformanceState)
    (he : child = w.worker) :
    Watcher.putState w child st = { w with state_ := st } := by
  unfold Watcher.putState
  rw [if_pos he]

/-- Auxiliary: Watcher::getState on a non-worker handle resolves the
extension path and goes through the extension_states operator[]. -/
theorem getState_ext (w : Watcher) (child : PlatformProcess) (hne : ¬ child = w.worker) :
    Watcher.getState w child =
      (mapGetD w.extension_states (Watcher.getExtensionPath w child) PerformanceState.zero,
       { w with extension_states :=
          mapIndex w.extension_states (Watcher.getExtensionPath w child) PerformanceState.zero }) := by
  unfold Watcher.getState
  rw [if_neg hne]

/-- Auxiliary: writing back through an extension-state reference. -/
theorem putState_ext (w : Watcher) (child : PlatformProcess) (st : PerformanceState)
    (hne : ¬ child = w.worker) :
    Watcher.putState w child st =
      { w with extension_states :=
          mapSet w.extension_states (Watcher.getExtensionPath w child) st } := by
  unfold Watcher.putState
  rw [if_neg hne]

/-- Auxiliary: Watcher::reset on the worker drops the worker handle. -/
theorem reset_worker_invalid (w : Watcher) (child : PlatformProcess) (he : child = w.worker) :
    (Watcher.reset w child).worker = PlatformProcess.invalid := by
  unfold Watcher.reset
  rw [if_pos he]
  rfl

/-- Auxiliary: Watcher::reset on a non-worker handle is the fold over the
extension map. -/
theorem reset_ext (w : Watcher) (child : PlatformProcess) (hne : ¬ child = w.worker) :
    Watcher.reset w child = w.extensions.foldl (resetStep child) w := by
  unfold Watcher.reset
  rw [if_neg hne]

/-- Auxiliary: a foreign parent short-circuits the decision tail into a
reset plus a sane verdict. -/
theorem isChildSaneDecide_foreign (env : Env) (cfg : RunnerCfg) (w1 : Watcher)
    (child : PlatformProcess) (out : SanityOutcome) (hpar : out.parent ≠ env.mypid) :
    isChildSaneDecide env cfg w1 child out = (Watcher.reset w1 child, true) := by
  unfold isChildSaneDecide
  rw [if_pos hpar]

/-- Auxiliary: the reset fold leaves the stored handle of a path alone when
no processed entry carries that path. -/
theorem resetFold_ext_not_mem (child : PlatformProcess) (p : String) (d : PlatformProcess) :
    ∀ (l : List (String × PlatformProcess)) (acc : Watcher),
    (∀ e ∈ l, e.1 ≠ p) →
    mapGetD (l.foldl (resetStep child) acc).extensions p d = mapGetD acc.extensions p d := by
  intro l
  induction l with
  | nil => intro acc _; rfl
  | cons e rest ih =>
    intro acc hl
    rw [List.foldl_cons, ih _ (fun e2 he2 => hl e2 (List.mem_cons_of_mem e he2))]
    unfold resetStep
    split
    · exact mapGetD_mapSet_ne _ _ _ _ _ (fun hh => hl e (List.mem_cons_self e rest) hh.symm)
    · rfl

/-- Auxiliary: after the reset fold, a path holding the matching handle
stores the invalid handle (given unique keys, as in std::map). -/
theorem resetFold_hits (child : PlatformProcess) (p : String) :
    ∀ (l : List (String × PlatformProcess)) (acc : Watcher),
    (p, child) ∈ l → (l.map (fun e => e.1)).Nodup →
    mapGetD (l.foldl (resetStep child) acc).extensions p PlatformProcess.invalid
      = PlatformProcess.invalid := by
  intro l
  induction l with
  | nil => intro acc hmem _; cases hmem
  | cons e rest ih =>
    intro acc hmem hnd
    rw [List.foldl_cons]
    rcases List.mem_cons.mp hmem with heq | hmem2
    · have hp : e.1 ∉ rest.map (fun e2 => e2.1) := (List.nodup_cons.mp hnd).1
      have hrest : ∀ e2 ∈ rest, e2.1 ≠ p := by
        intro e2 he2 habs
        rw [← heq] at hp
        exact hp (habs ▸ List.mem_map_of_mem (fun e3 => e3.1) he2)
      rw [resetFold_ext_not_mem child p _ rest _ hrest]
      rw [← heq]
      unfold resetStep
      rw [if_pos rfl]
      exact mapGetD_mapSet_self _ _ _ _
    · exact ih (resetStep child acc e) hmem2 (List.nodup_cons.mp hnd).2

/-- Auxiliary: resetting a non-worker child stores the invalid handle at
every path holding that child (unique keys). -/
theorem reset_ext_extensions_invalid (w1 : Watcher) (child : PlatformProcess) (p : String)
    (hne : ¬ child = w1.worker)
    (hmem : (p, child) ∈ w1.extensions)
    (hnd : (w1.extensions.map (fun e => e.1)).Nodup) :
    mapGetD (Watcher.reset w1 child).extensions p PlatformProcess.invalid
      = PlatformProcess.invalid := by
  rw [reset_ext w1 child hne]
  exact resetFold_hits child p _ _ hmem hnd

/-- Auxiliary: a live foreign-parent worker check: the watch succeeds, the
worker handle is released, no signal is sent. -/
theorem foreign_worker_watch (env : Env) (cfg : RunnerCfg) (w : Watcher) (r : RawRow) (s : Int)
    (hf : w.fates_bound = false) (hv : w.worker.isValid = true)
    (hcs : env.checkStatus w.worker.pid = (ProcessState.alive, s))
    (hrows : env.rows w.worker.pid = [r])
    (hpar : (runParse r (checkIv cfg)).parent ≠ env.mypid) :
    (WatcherRunner.watch env cfg w w.worker).ok = true ∧
    (WatcherRunner.watch env cfg w w.worker).watcher.worker = PlatformProcess.invalid ∧
    (WatcherRunner.watch env cfg w w.worker).events = [] := by
  have hcond : (sanityUpdate (getWorkerLimit WatchdogLimitType.UTILIZATION_LIMIT cfg.level)
      (checkIv cfg) w.state_ r).parent ≠ env.mypid := by
    rw [sanityUpdate_parent]
    exact hpar
  have hsane : WatcherRunner.isChildSane env cfg w w.worker
      = (Watcher.reset
          { w with state_ := (sanityUpdate (getWorkerLimit WatchdogLimitType.UTILIZATION_LIMIT cfg.level)
              (checkIv cfg) w.state_ r).state } w.worker, true) := by
    unfold WatcherRunner.isChildSane
    simp only [hrows]
    unfold isChildSaneRow
    simp only [getState_worker w w.worker rfl]
    rw [putState_worker _ _ _ rfl]
    unfold isChildSaneDecide
    rw [if_pos hcond]
  refine ⟨?_, ?_, ?_⟩ <;> simp [WatcherRunner.watch, hf, hv, hcs, hsane, reset_worker_invalid]

/-- Auxiliary: a live foreign-parent extension check: the watch succeeds,
the stored handle for the path is replaced by an invalid one, no signal is
sent. -/
theorem foreign_ext_watch (env : Env) (cfg : RunnerCfg) (w : Watcher) (r : RawRow) (s : Int)
    (p : String) (h : PlatformProcess)
    (hf : w.fates_bound = false) (hv : h.isValid = true)
    (hnw : ¬ h = w.worker)
    (hmem : (p, h) ∈ w.extensions)
    (hnd : (w.extensions.map (fun e => e.1)).Nodup)
    (hcs : env.checkStatus h.pid = (ProcessState.alive, s))
    (hrows : env.rows h.pid = [r])
    (hpar : (runParse r (checkIv cfg)).parent ≠ env.mypid) :
    (WatcherRunner.watch env cfg w h).ok = true ∧
    mapGetD (WatcherRunner.watch env cfg w h).watcher.extensions p PlatformProcess.invalid
      = PlatformProcess.invalid ∧
    (WatcherRunner.watch env cfg w h).events = [] := by
  have hcond : ∀ st, (sanityUpdate (getWorkerLimit WatchdogLimitType.UTILIZATION_LIMIT cfg.level)
      (checkIv cfg) st r).parent ≠ env.mypid := by
    intro st
    rw [sanityUpdate_parent]
    exact hpar
  have hs2 : (WatcherRunner.isChildSane env cfg w h).2 = true := by
    unfold WatcherRunner.isChildSane
    simp only [hrows]
    unfold isChildSaneRow
    simp only [getState_ext w h hnw]
    rw [putState_ext
      ({ w with extension_states :=
          mapIndex w.extension_states (Watcher.getExtensionPath w h) PerformanceState.zero }) h
      ((sanityUpdate (getWorkerLimit WatchdogLimitType.UTILIZATION_LIMIT cfg.level) (checkIv cfg)
        (mapGetD w.extension_states (Watcher.getExtensionPath w h) PerformanceState.zero) r).state)
      hnw]
    rw [isChildSaneDecide_foreign env cfg _ h _ (hcond _)]
  have hs1 : mapGetD (WatcherRunner.isChildSane env cfg w h).1.extensions p
      PlatformProcess.invalid = PlatformProcess.invalid := by
    unfold WatcherRunner.isChildSane
    simp only [hrows]
    unfold isChildSaneRow
    simp only [getState_ext w h hnw]
    rw [putState_ext
      ({ w with extension_states :=
          mapIndex w.extension_states (Watcher.getExtensionPath w h) PerformanceState.zero }) h
      ((sanityUpdate (getWorkerLimit WatchdogLimitType.UTILIZATION_LIMIT cfg.level) (checkIv cfg)
        (mapGetD w.extension_states (Watcher.getExtensionPath w h) PerformanceState.zero) r).state)
      hnw]
    rw [isChildSaneDecide_foreign env cfg _ h _ (hcond _)]
    exact reset_ext_extensions_invalid _ h p hnw hmem hnd
  refine ⟨?_, ?_, ?_⟩ <;> simp [WatcherRunner.watch, hf, hv, hcs, hs2, hs1]

/-- C5: a tracked child whose process row reports a foreign parent pid is
released and reported not-ours.  First conjunct: for the worker, the watch
returns success, the worker handle becomes invalid and no kill event is
emitted.  Second conjunct: for an extension, the watch returns success, the
stored handle for its path becomes the invalid handle, and no kill event is
emitted.  Third conjunct: in a full loop iteration over the foreign-worker
scenario the body emits only the interval sleep (no signal, no launch), so
no respawn happens in the same iteration. -/
theorem c5_foreign :
    (∀ (env : Env) (cfg : RunnerCfg) (w : Watcher) (r : RawRow) (s : Int),
      w.fates_bound = false → w.worker.isValid = true →
      env.checkStatus w.worker.pid = (ProcessState.alive, s) →
      env.rows w.worker.pid = [r] →
      (runParse r (checkIv cfg)).parent ≠ env.mypid →
      (WatcherRunner.watch env cfg w w.worker).ok = true ∧
      (WatcherRunner.watch env cfg w w.worker).watcher.worker = PlatformProcess.invalid ∧
      (WatcherRunner.watch env cfg w w.worker).events = []) ∧
    (∀ (env : Env) (cfg : RunnerCfg) (w : Watcher) (r : RawRow) (s : Int) (p : String)
        (h : PlatformProcess),
      w.fates_bound = false → h.isValid = true → ¬ h = w.worker →
      (p, h) ∈ w.extensions → (w.extensions.map (fun e => e.1)).Nodup →
      env.checkStatus h.pid = (ProcessState.alive, s) →
      env.rows h.pid = [r] →
      (runParse r (checkIv cfg)).parent ≠ env.mypid →
      (WatcherRunner.watch env cfg w h).ok = true ∧
      mapGetD (WatcherRunner.watch env cfg w h).watcher.extensions p PlatformProcess.invalid
        = PlatformProcess.invalid ∧
      (WatcherRunner.watch env cfg w h).events = []) ∧
    ((WatcherRunner.loopBodyOnce env5 cfg0 wBase).events = [Event.sleep 3000] ∧
     (WatcherRunner.loopBodyOnce env5 cfg0 wBase).watcher.worker = PlatformProcess.invalid ∧
     (WatcherRunner.loopBodyOnce env5 cfg0 wBase).broke = false) := by
  refine ⟨?_, ?_, by decide⟩
  · intro env cfg w r s hf hv hcs hrows hpar
    exact foreign_worker_watch env cfg w r s hf hv hcs hrows hpar
  · intro env cfg w r s p h hf hv hnw hmem hnd hcs hrows hpar
    exact foreign_ext_watch env cfg w r s p h hf hv hnw hmem hnd hcs hrows hpar

/-- C5 witness: the worker conjunct applied to the concrete foreign-parent
scenario (worker pid 5, row parent 1, supervisor pid 42). -/
theorem c5_witness :
    (WatcherRunner.watch env5 cfg0 wBase wBase.worker).ok = true ∧
    (WatcherRunner.watch env5 cfg0 wBase wBase.worker).watcher.worker = PlatformProcess.invalid ∧
    (WatcherRunner.watch env5 cfg0 wBase wBase.worker).events = [] :=
  c5_foreign.1 env5 cfg0 wBase rForeign 0 (by decide) (by decide) (by decide) (by decide)
    (by decide)

/-- C6: when createWorker is entered inside the rapid-respawn window, the
restart counter is incremented first and the back-off sleep lasts exactly
limit(RESPAWN_DELAY) * 1000 + 2 ^ restart_count * 1000 milliseconds, where
restart_count is the already-incremented value. -/
theorem c6_backoff (env : Env) (cfg : RunnerCfg) (w : Watcher)
    (hb : (Watcher.getState w w.worker).1.last_respawn_time >
      usub env.now (getWorkerLimit WatchdogLimitType.RESPAWN_LIMIT cfg.level)) :
    (WatcherRunner.createWorker env cfg w).watcher.worker_restarts = w.worker_restarts + 1 ∧
    Event.sleep (getWorkerLimit WatchdogLimitType.RESPAWN_DELAY cfg.level * 1000
        + 2 ^ (w.worker_restarts + 1) * 1000)
      ∈ (WatcherRunner.createWorker env cfg w).events := by
  have hbp : backoffPhase env cfg w
      = (Watcher.workerRestarted w,
         [Event.lockAcquire,
          Event.sleep (getWorkerLimit WatchdogLimitType.RESPAWN_DELAY cfg.level * 1000
            + 2 ^ Watcher.workerRestartCount (Watcher.workerRestarted w) * 1000),
          Event.lockRelease]) := by
    unfold backoffPhase
    rw [if_pos hb]
  have hcount : Watcher.workerRestartCount (Watcher.workerRestarted w) = w.worker_restarts + 1 := rfl
  rw [hcount] at hbp
  unfold WatcherRunner.createWorker
  cases hq : env.qdPathOk with
  | false => simp [hq, hbp, Watcher.workerRestarted]
  | true =>
    cases hsf : env.safeWorker with
    | false => simp [hq, hsf, hbp, Watcher.workerRestarted]
    | true =>
      cases hl : env.launchWorkerRes with
      | none => simp [hq, hsf, hl, hbp, Watcher.workerRestarted]
      | some pr =>
        simp [hq, hsf, hl, hbp, Watcher.workerRestarted, Watcher.resetWorkerCounters,
          Watcher.setWorker]

/-- C6 witness: the back-off statement at the concrete rapid-respawn state
(last respawn at 95 s, clock 100 s, RESPAWN_LIMIT 20 s, restart counter 0):
the counter becomes 1 and the sleep is 5000 + 2000 ms. -/
theorem c6_witness :
    (WatcherRunner.createWorker envBase cfg0 w7).watcher.worker_restarts
      = w7.worker_restarts + 1 ∧
    Event.sleep (getWorkerLimit WatchdogLimitType.RESPAWN_DELAY cfg0.level * 1000
        + 2 ^ (w7.worker_restarts + 1) * 1000)
      ∈ (WatcherRunner.createWorker envBase cfg0 w7).events :=
  c6_backoff envBase cfg0 w7 (by decide)

/-- C8: watch stores the observed exit code of any child, extensions
included, into the single shared worker_status field, and the stored code
makes ok() false when it is EXIT_SUCCESS or EXIT_CATASTROPHIC.  First
conjunct: the universal store-and-succeed behaviour of watch on an exited
child.  Second conjunct: a full loop iteration over the concrete scenario
where the worker (pid 5) is alive and healthy and the extension (pid 9)
exited with EXIT_SUCCESS: the iteration stores 0, the loop condition goes
false, and the worker handle is still valid (the worker never exited). -/
theorem c8_exit_status :
    (∀ (env : Env) (cfg : RunnerCfg) (w : Watcher) (child : PlatformProcess) (code : Int),
      w.fates_bound = false → child.isValid = true →
      env.checkStatus child.pid = (ProcessState.exited, code) →
      (WatcherRunner.watch env cfg w child).watcher.worker_status = code ∧
      (WatcherRunner.watch env cfg w child).ok = true) ∧
    ((WatcherRunner.loopBodyOnce env8 cfg0 w8).watcher.worker_status = 0 ∧
     (WatcherRunner.loopBodyOnce env8 cfg0 w8).cont = false ∧
     (WatcherRunner.loopBodyOnce env8 cfg0 w8).watcher.worker.isValid = true ∧
     w8.worker_status ≠ 0) := by
  constructor
  · intro env cfg w child code hf hv hcs
    constructor <;> simp [WatcherRunner.watch, hf, hv, hcs]
  · refine ⟨?_, ?_, ?_, ?_⟩ <;> decide

/-- C8 witness: the universal conjunct applied to the concrete scenario:
the extension with pid 9 exited with code 0 and the watch stores it. -/
theorem c8_witness :
    (WatcherRunner.watch env8 cfg0 w8 ⟨9⟩).watcher.worker_status = 0 ∧
    (WatcherRunner.watch env8 cfg0 w8 ⟨9⟩).ok = true :=
  c8_exit_status.1 env8 cfg0 w8 ⟨9⟩ 0 (by decide) (by decide) (by decide)

/-- Auxiliary: every column of the LATENCY_LIMIT row is at least 1. -/
theorem latency_limit_pos (level : Nat) :
    1 ≤ getWorkerLimit WatchdogLimitType.LATENCY_LIMIT level := by
  unfold getWorkerLimit
  split
  · decide
  · rename_i hgt
    have hle : level ≤ 3 := by omega
    interval_cases level <;> decide

/-- Auxiliary: the check interval is at least 1. -/
theorem checkIv_pos (cfg : RunnerCfg) : 1 ≤ checkIv cfg := Nat.le_max_right _ 1

/-- Auxiliary: characterisation of the ceiling division bound. -/
theorem ceilDiv_le_iff (L iv k : Nat) (hL : 1 ≤ L) (hiv : 1 ≤ iv) :
    ceilDiv L iv ≤ k ↔ L ≤ k * iv := by
  unfold ceilDiv
  have h1 : L + iv - 1 = (L - 1) + iv := by omega
  rw [h1, Nat.add_div_right _ (by omega : 0 < iv)]
  constructor
  · intro h
    have h2 : (L - 1) / iv < k := by omega
    have h3 := (Nat.div_lt_iff_lt_mul (by omega : 0 < iv)).mp h2
    omega
  · intro h
    have h2 : L - 1 < k * iv := by omega
    have h3 := (Nat.div_lt_iff_lt_mul (by omega : 0 < iv)).mpr h2
    omega

/-- Auxiliary: the Bool trip condition as a proposition. -/
theorem tripCondB_iff (cfg : RunnerCfg) (st : PerformanceState) (smp : Sample) :
    tripCondB cfg st smp = true ↔
      (usub smp.user_time st.user_time > getWorkerLimit WatchdogLimitType.UTILIZATION_LIMIT cfg.level ∨
       usub smp.system_time st.system_time > getWorkerLimit WatchdogLimitType.UTILIZATION_LIMIT cfg.level) := by
  simp [tripCondB]

/-- Auxiliary: the Bool memory-limit condition as a proposition. -/
theorem memOkB_iff (cfg : RunnerCfg) (out : SanityOutcome) :
    memOkB cfg out = true ↔
      ¬ (out.footprint > 0 ∧
         out.footprint > getWorkerLimit WatchdogLimitType.MEMORY_LIMIT cfg.level * 1024 * 1024) := by
  constructor
  · intro h hc
    unfold memOkB at h
    simp [hc.1, hc.2] at h
  · intro h
    unfold memOkB
    by_cases h1 : out.footprint > 0
    · by_cases h2 : out.footprint > getWorkerLimit WatchdogLimitType.MEMORY_LIMIT cfg.level * 1024 * 1024
      · exact absurd ⟨h1, h2⟩ h
      · simp [h1, h2]
    · simp [h1]

/-- Auxiliary: one sanity check on the worker under the trip hypotheses:
the registry keeps its worker and stores the updated state, the verdict is
exactly "sustained latency still under the latency limit", and the latency
counter rose by one. -/
theorem isChildSane_trip_step (e : Env) (cfg : RunnerCfg) (w : Watcher) (r : RawRow)
    (hrows : e.rows w.worker.pid = [r])
    (hthrew : (runParse r (checkIv cfg)).threw = false)
    (hpare : (runParse r (checkIv cfg)).parent = e.mypid)
    (htrip : tripCondB cfg w.state_ (runParse r (checkIv cfg)) = true)
    (hmem : memOkB cfg (sanityUpdate (getWorkerLimit WatchdogLimitType.UTILIZATION_LIMIT cfg.level)
      (checkIv cfg) w.state_ r) = true) :
    WatcherRunner.isChildSane e cfg w w.worker
      = ({ w with state_ := (sanityUpdate (getWorkerLimit WatchdogLimitType.UTILIZATION_LIMIT cfg.level)
            (checkIv cfg) w.state_ r).state },
         decide ((w.state_.sustained_latency + 1) * checkIv cfg
           < getWorkerLimit WatchdogLimitType.LATENCY_LIMIT cfg.level)) ∧
    (sanityUpdate (getWorkerLimit WatchdogLimitType.UTILIZATION_LIMIT cfg.level) (checkIv cfg)
        w.state_ r).state.sustained_latency = w.state_.sustained_latency + 1 := by
  have hlat : (sanityUpdate (getWorkerLimit WatchdogLimitType.UTILIZATION_LIMIT cfg.level)
      (checkIv cfg) w.state_ r).state.sustained_latency = w.state_.sustained_latency + 1 := by
    rw [sanityUpdate_latency, if_pos ((tripCondB_iff cfg w.state_ _).mp htrip)]
    simp [hthrew]
  have hsnap : (sanityUpdate (getWorkerLimit WatchdogLimitType.UTILIZATION_LIMIT cfg.level)
      (checkIv cfg) w.state_ r).sustained_latency = w.state_.sustained_latency + 1 := by
    rw [sanityUpdate_latency_snapshot]
    exact hlat
  have hpar2 : (sanityUpdate (getWorkerLimit WatchdogLimitType.UTILIZATION_LIMIT cfg.level)
      (checkIv cfg) w.state_ r).parent = e.mypid := by
    rw [sanityUpdate_parent]
    exact hpare
  refine ⟨?_, hlat⟩
  unfold WatcherRunner.isChildSane
  simp only [hrows]
  unfold isChildSaneRow
  simp only [getState_worker w w.worker rfl]
  rw [putState_worker w w.worker _ rfl]
  unfold isChildSaneDecide
  rw [if_neg (not_not_intro hpar2)]
  by_cases hge : getWorkerLimit WatchdogLimitType.LATENCY_LIMIT cfg.level
      ≤ (w.state_.sustained_latency + 1) * checkIv cfg
  · rw [if_pos ⟨by rw [hsnap]; omega, by rw [hsnap]; exact hge⟩]
    rw [show decide ((w.state_.sustained_latency + 1) * checkIv cfg
        < getWorkerLimit WatchdogLimitType.LATENCY_LIMIT cfg.level) = false from by
      simp [Nat.not_lt.mpr hge]]
  · rw [if_neg (fun hc => hge (hsnap ▸ hc.2))]
    rw [if_neg ((memOkB_iff cfg _).mp hmem)]
    rw [show decide ((w.state_.sustained_latency + 1) * checkIv cfg
        < getWorkerLimit WatchdogLimitType.LATENCY_LIMIT cfg.level) = true from by
      simp [Nat.lt_of_not_le hge]]

/-- Auxiliary: splitting the first element off the verdict pattern. -/
theorem map_range_decide_shift (iv L n base : Nat) :
    (List.range (n + 1)).map (fun i => decide ((base + i + 1) * iv < L))
      = decide ((base + 1) * iv < L)
        :: (List.range n).map (fun i => decide ((base + 1 + i + 1) * iv < L)) := by
  rw [List.range_succ_eq_map, List.map_cons, List.map_map]
  congr 1
  simp only [Function.comp, Nat.succ_eq_add_one, List.map_inj_left]
  intro a _
  rw [show base + (a + 1) + 1 = base + 1 + a + 1 from by omega]

/-- Auxiliary: under the all-checks-trip hypothesis, the verdict sequence
of the iterated worker sanity checks is the latency count against the
latency limit, one increment per check. -/
theorem runSanity_allTrip (cfg : RunnerCfg) (mypid : Int) :
    ∀ (envs : List Env) (w : Watcher),
    allTripRun cfg mypid w.worker.pid w.state_ envs = true →
    (runSanityChecks cfg w w.worker envs).2
      = (List.range envs.length).map
          (fun i => decide ((w.state_.sustained_latency + i + 1) * checkIv cfg
            < getWorkerLimit WatchdogLimitType.LATENCY_LIMIT cfg.level)) := by
  intro envs
  induction envs with
  | nil => intro w _; rfl
  | cons e rest ih =>
    intro w h
    rcases hrows : e.rows w.worker.pid with _ | ⟨r, tail⟩
    · simp [allTripRun, hrows] at h
    · cases tail with
      | cons r2 t2 => simp [allTripRun, hrows] at h
      | nil =>
        simp only [allTripRun, hrows, Bool.and_eq_true] at h
        obtain ⟨⟨⟨⟨⟨h1, h2⟩, h3⟩, h4⟩, h5⟩, h6⟩ := h
        have h1f : (runParse r (checkIv cfg)).threw = false := by
          simpa using h1
        have h2e : (runParse r (checkIv cfg)).parent = e.mypid := by
          simpa using h2
        have hstep := isChildSane_trip_step e cfg w r hrows h1f h2e h4 h5
        have ihh := ih { w with state_ :=
            (sanityUpdate (getWorkerLimit WatchdogLimitType.UTILIZATION_LIMIT cfg.level)
              (checkIv cfg) w.state_ r).state } h6
        rw [show ({ w with state_ :=
              (sanityUpdate (getWorkerLimit WatchdogLimitType.UTILIZATION_LIMIT cfg.level)
                (checkIv cfg) w.state_ r).state } : Watcher).worker = w.worker from rfl,
            show ({ w with state_ :=
              (sanityUpdate (getWorkerLimit WatchdogLimitType.UTILIZATION_LIMIT cfg.level)
                (checkIv cfg) w.state_ r).state } : Watcher).state_ =
              (sanityUpdate (getWorkerLimit WatchdogLimitType.UTILIZATION_LIMIT cfg.level)
                (checkIv cfg) w.state_ r).state from rfl,
            hstep.2] at ihh
        simp only [runSanityChecks, hstep.1]
        rw [List.length_cons, map_range_decide_shift, ihh]

/-- C4: starting from a zeroed PerformanceState, when a CPU delta exceeds
limit(UTILIZATION_LIMIT) at each of n = ceil(limit(LATENCY_LIMIT) / iv)
consecutive sanity checks, iv = max(limit(INTERVAL), 1), with the row
present, the parent ours and no memory trip, the sanity evaluator reports
healthy at every check before the n-th and unhealthy exactly at the n-th. -/
theorem c4_latency_trip (cfg : RunnerCfg) (mypid : Int) (w : Watcher) (envs : List Env)
    (hzero : w.state_ = PerformanceState.zero)
    (htrip : allTripRun cfg mypid w.worker.pid w.state_ envs = true)
    (hlen : envs.length = ceilDiv (getWorkerLimit WatchdogLimitType.LATENCY_LIMIT cfg.level)
      (checkIv cfg)) :
    (runSanityChecks cfg w w.worker envs).2
      = List.replicate (envs.length - 1) true ++ [false] := by
  have hrun := runSanity_allTrip cfg mypid envs w htrip
  have hlat0 : w.state_.sustained_latency = 0 := by
    rw [hzero]
    rfl
  rw [hlat0] at hrun
  simp only [Nat.zero_add] at hrun
  have hL : 1 ≤ getWorkerLimit WatchdogLimitType.LATENCY_LIMIT cfg.level :=
    latency_limit_pos cfg.level
  have hiv : 1 ≤ checkIv cfg := checkIv_pos cfg
  have hn1 : 1 ≤ envs.length := by
    rw [hlen]
    by_contra hcon
    have h0 : ceilDiv (getWorkerLimit WatchdogLimitType.LATENCY_LIMIT cfg.level)
        (checkIv cfg) ≤ 0 := by omega
    have h0b := (ceilDiv_le_iff _ _ 0 hL hiv).mp h0
    omega
  obtain ⟨m, hm⟩ : ∃ m, envs.length = m + 1 := ⟨envs.length - 1, by omega⟩
  rw [hm] at hrun hlen
  rw [hrun, hm]
  rw [List.range_succ, List.map_append]
  have hlast : decide ((m + 1) * checkIv cfg
      < getWorkerLimit WatchdogLimitType.LATENCY_LIMIT cfg.level) = false := by
    have hle : getWorkerLimit WatchdogLimitType.LATENCY_LIMIT cfg.level
        ≤ (m + 1) * checkIv cfg := (ceilDiv_le_iff _ _ (m + 1) hL hiv).mp (by omega)
    exact decide_eq_false (Nat.not_lt.mpr hle)
  have hmap : (List.range m).map (fun i => decide ((i + 1) * checkIv cfg
      < getWorkerLimit WatchdogLimitType.LATENCY_LIMIT cfg.level)) = List.replicate m true := by
    have hmem : ∀ b ∈ (List.range m).map (fun i => decide ((i + 1) * checkIv cfg
        < getWorkerLimit WatchdogLimitType.LATENCY_LIMIT cfg.level)), b = true := by
      intro b hb
      obtain ⟨i, hi, rfl⟩ := List.mem_map.mp hb
      have him : i < m := List.mem_range.mp hi
      have hlt : (i + 1) * checkIv cfg
          < getWorkerLimit WatchdogLimitType.LATENCY_LIMIT cfg.level := by
        by_contra hcon2
        have hge2 : getWorkerLimit WatchdogLimitType.LATENCY_LIMIT cfg.level
            ≤ (i + 1) * checkIv cfg := by omega
        have hub := (ceilDiv_le_iff _ _ (i + 1) hL hiv).mpr hge2
        omega
      exact decide_eq_true hlt
    have hrep := List.eq_replicate_of_mem hmem
    simpa using hrep
  rw [hmap]
  simp [hlast]

/-- C4 witness: the latency-trip theorem at level 0 (interval 3 s, latency
limit 12 s, so n = 4) on the concrete four-check CPU-hog scenario: the
first three checks are healthy, the fourth is unhealthy. -/
theorem c4_witness :
    (runSanityChecks cfg0 wBase wBase.worker envs4).2 = [true, true, true, false] :=
  (c4_latency_trip cfg0 42 wBase envs4 rfl (by decide) (by decide)).trans (by decide)
